import Mathlib

/-!
Verification of the Azure Data Explorer MCP server's handler and router.

The development shallowly embeds:
  * `KustoHandler` (fields `currentClusterUrl`, `kustoClient`, `initialized`
    — the last modelled as `inited` — together with `formatClusterUrl`,
    `getClient`, `prepareResponseObj`, `executeQuery`);
  * the router `ADXServer.handleToolCall` and the CallTool request handler
    installed by `ADXServer.setupToolHandlers`.

External calls (Azure CLI credential acquisition, `KustoClient` construction,
`client.execute` followed by `primaryResults[0].toString()` and `JSON.parse`)
are modelled by an oracle structure `KustoWorld` whose fields give the outcome
of each call; every such call is also recorded in an explicit effect trace, so
that statements such as "acquires credentials exactly once" or "performs no
network call" are about the trace.

JavaScript truthiness of optional strings (`undefined` and `""` are falsy) and
of JSON values, and the `x || y` idiom, are modelled explicitly, since the
source relies on them for parameter defaulting.
-/

namespace ADX

/-- A JSON value, the result of `JSON.parse` on a raw result payload. -/
inductive Json where
  | null : Json
  | bool (b : Bool) : Json
  | num (n : Int) : Json
  | str (s : String) : Json
  | arr (xs : List Json) : Json
  | obj (fields : List (String × Json)) : Json
  deriving Repr, Inhabited

/-- A thrown JavaScript error, reduced to its `message` text (the only part
the handler ever reads). -/
structure KError where
  message : String
  deriving Repr, DecidableEq, Inhabited

/-- `pre` is a prefix of `s`, over character lists (kernel-evaluable stand-in
for `String.startsWith`). -/
def hasPre : List Char → List Char → Bool
  | [], _ => true
  | _ :: _, [] => false
  | a :: as, b :: bs => a == b && hasPre as bs

/-- `pat` occurs as a contiguous run inside `s`, over character lists. -/
def hasSub (pat : List Char) : List Char → Bool
  | [] => hasPre pat []
  | b :: bs => hasPre pat (b :: bs) || hasSub pat bs

/-- JS truthiness of an optional string: `undefined` and `""` are falsy. -/
def jsTruthy : Option String → Bool
  | none => false
  | some s => !s.isEmpty

/-- JS `a || b` on optional strings. -/
def jsOr (a b : Option String) : Option String :=
  if jsTruthy a then a else b

/-- JS `a || b || ''` on optional strings, as used for the input echo. -/
def jsOrD (a b : Option String) : String :=
  if jsTruthy a then a.getD "" else if jsTruthy b then b.getD "" else ""

/-- JS truthiness of a JSON value (`null`, `false`, `0` and `""` are falsy;
every array and object is truthy). -/
def jsTruthyJson : Json → Bool
  | .null => false
  | .bool b => b
  | .num n => n != 0
  | .str s => !s.isEmpty
  | .arr _ => true
  | .obj _ => true

/-- JS member access `j.key` where `j` came from `JSON.parse`: access on
`null` throws a `TypeError`; on a non-object it yields `undefined` (`none`);
on an object it looks the key up. -/
def jsGetMember (j : Json) (key : String) : Except KError (Option Json) :=
  match j with
  | .null => .error ⟨"Cannot read properties of null (reading " ++ key ++ ")"⟩
  | .obj fields => .ok (fields.lookup key)
  | _ => .ok none

/-- JS `v.length` rendered into a template literal: the length of an array or
a string, and the text `undefined` for any other value. -/
def jsLengthStr : Json → String
  | .arr xs => toString xs.length
  | .str s => toString s.length
  | _ => "undefined"

/-- `true` when `pat` occurs as a substring of `s`. -/
def containsStr (s pat : String) : Bool :=
  hasSub pat.toList s.toList

/-- The parameters of `executeQuery` (`KustoQueryParams` in the source);
`database` and `clusterUrl` are optional. -/
structure KustoQueryParams where
  query : String
  database : Option String := none
  clusterUrl : Option String := none
  deriving Repr, DecidableEq, Inhabited

/-- The two environment variables the handler consults. -/
structure Env where
  KUSTO_DEFAULT_CLUSTER : Option String := none
  KUSTO_DEFAULT_DATABASE : Option String := none
  deriving Repr, DecidableEq, Inhabited

/-- A client handle (`KustoClient`).  `url` is the connection URL it was
built for; `id` is model bookkeeping (a construction serial number) that lets
the development state that two handles are the same object. -/
structure KustoClient where
  url : String
  id : Nat
  deriving Repr, DecidableEq, Inhabited

/-- The mutable fields of the `KustoHandler` class.  `inited` models the
source's `initialized` flag; `clientSeq` is model bookkeeping feeding
`KustoClient.id`. -/
structure KustoHandler where
  currentClusterUrl : Option String := none
  kustoClient : Option KustoClient := none
  inited : Bool := false
  clientSeq : Nat := 0
  deriving Repr, DecidableEq, Inhabited

/-- One external call made by the handler, recorded in the effect trace. -/
inductive Effect where
  | getToken (scope : String) : Effect
  | newClient (url : String) : Effect
  | execute (database query : String) : Effect
  deriving Repr, DecidableEq

/-- Oracle for the outcomes of the external calls: `getTokenResult scope` is
the outcome of `credential.getToken(scope)`; `newClientResult url` of
building the connection string and `new KustoClient(...)`; and
`executeResult url database query` of `client.execute(...)` composed with
`primaryResults[0].toString()` and `JSON.parse` (an `error` covers a failure
anywhere in that chain, an `ok` is the parsed payload). -/
structure KustoWorld where
  getTokenResult : String → Except KError Unit
  newClientResult : String → Except KError Unit
  executeResult : String → String → String → Except KError Json

/-- `initialize()` — sets the flag and nothing else. -/
def KustoHandler.init (h : KustoHandler) : KustoHandler :=
  { h with inited := true }

/-- `formatClusterUrl`: a string already starting with `https://`
(`cluster.startsWith('https://')`, stated over the character list) is
returned as is, otherwise it is wrapped as a full Kusto cluster URL. -/
def formatClusterUrl (cluster : String) : String :=
  if hasPre "https://".toList cluster.toList then cluster
  else "https://" ++ cluster ++ ".kusto.windows.net"

/-- The body of `getClient`'s reinitialization branch: acquire a token from
the Azure CLI credential, build the client, and cache it together with the
formatted URL.  A failure of either external call propagates and leaves the
handler unchanged (the source assigns `this.kustoClient` and
`this.currentClusterUrl` only after both calls return). -/
def KustoHandler.makeClient (h : KustoHandler) (w : KustoWorld)
    (formattedUrl : String) :
    Except KError KustoClient × KustoHandler × List Effect :=
  match w.getTokenResult (formattedUrl ++ "/.default") with
  | .error e => (.error e, h, [.getToken (formattedUrl ++ "/.default")])
  | .ok _ =>
    match w.newClientResult formattedUrl with
    | .error e =>
      (.error e, h,
        [.getToken (formattedUrl ++ "/.default"), .newClient formattedUrl])
    | .ok _ =>
      let c : KustoClient := { url := formattedUrl, id := h.clientSeq }
      (.ok c,
        { h with
            kustoClient := some c
            currentClusterUrl := some formattedUrl
            clientSeq := h.clientSeq + 1 },
        [.getToken (formattedUrl ++ "/.default"), .newClient formattedUrl])

/-- `getClient`: format the URL; reinitialize the client when there is no
cached client or the cached URL differs (`!this.kustoClient ||
this.currentClusterUrl !== formattedUrl`, split here into a match on the
cached client and an equality test), otherwise return the cached handle with
no external call. -/
def KustoHandler.getClient (h : KustoHandler) (w : KustoWorld)
    (clusterUrl : String) :
    Except KError KustoClient × KustoHandler × List Effect :=
  match h.kustoClient with
  | none => h.makeClient w (formatClusterUrl clusterUrl)
  | some c =>
    if h.currentClusterUrl = some (formatClusterUrl clusterUrl) then
      (.ok c, h, [])
    else h.makeClient w (formatClusterUrl clusterUrl)

/-- The echo of the (defaulted, formatted) input placed in every envelope. -/
structure InputEcho where
  clusterUrl : String
  database : String
  query : String
  deriving Repr, DecidableEq, Inhabited

/-- The uniform response envelope built by `prepareResponseObj`: `data` and
`message` are present on the success shape, `error` on the failure shape. -/
structure ResponseObj where
  success : Bool
  input : InputEcho
  data : Option Json := none
  message : Option String := none
  error : Option String := none
  deriving Repr, Inhabited

/-- The row-count message of a success envelope, with the rendered
`data.length` spliced in. -/
def rowsMessage (lengthText : String) : String :=
  "Query executed successfully. Retrieved " ++ lengthText ++ " rows."

/-- The failure envelope's error text: `error || 'Unknown error occurred
while executing Kusto query'`. -/
def errText : Option String → String
  | some s =>
    if s.isEmpty then "Unknown error occurred while executing Kusto query"
    else s
  | none => "Unknown error occurred while executing Kusto query"

/-- `prepareResponseObj`: echo the defaulted input (cluster URL formatted),
then either the success shape (`success && data` truthy — note that in JS an
empty array is truthy) carrying `data` and the row-count message, or the
failure shape carrying `error || 'Unknown error occurred while executing
Kusto query'`. -/
def prepareResponseObj (env : Env) (params : KustoQueryParams)
    (success : Bool) (data : Option Json) (error : Option String) :
    ResponseObj :=
  let clusterUrl := jsOrD params.clusterUrl env.KUSTO_DEFAULT_CLUSTER
  let database := jsOrD params.database env.KUSTO_DEFAULT_DATABASE
  let input : InputEcho :=
    { clusterUrl := formatClusterUrl clusterUrl
      database := database
      query := params.query }
  if success && (data.map jsTruthyJson).getD false then
    { success := success
      input := input
      data := data
      message := some (rowsMessage (jsLengthStr (data.getD .null))) }
  else
    { success := success
      input := input
      error := some (errText error) }

/-- One content block of the transport response; `text` holds the envelope
that the source serializes with `JSON.stringify`, kept structured here. -/
structure ContentBlock where
  type : String
  text : ResponseObj
  deriving Repr, Inhabited

/-- The transport-level response returned by `executeQuery`: a single text
content block, plus `isError: true` on the failure path (the key is absent on
the success path, modelled as `none`). -/
structure ToolResponse where
  content : List ContentBlock
  isError : Option Bool := none
  deriving Repr, Inhabited

/-- The message of the error thrown when a query operation runs before
`initialize()`. -/
def notInitedMsg : String :=
  "KustoHandler not initialized. Call initialize() first."

/-- The message of the error thrown when no cluster URL is resolvable. -/
def clusterReqMsg : String :=
  "Cluster URL must be provided either in parameters or via KUSTO_DEFAULT_CLUSTER environment variable"

/-- The message of the error thrown when no database is resolvable. -/
def databaseReqMsg : String :=
  "Database must be provided either in parameters or via KUSTO_DEFAULT_DATABASE environment variable"

/-- The failure-path return of `executeQuery`'s catch block. -/
def errorResponse (env : Env) (params : KustoQueryParams) (msg : String) :
    ToolResponse :=
  { content := [{ type := "text"
                  text := prepareResponseObj env params false none (some msg) }]
    isError := some true }

/-- The success-path return of `executeQuery`. -/
def successResponse (env : Env) (params : KustoQueryParams) (rowData : Json) :
    ToolResponse :=
  { content := [{ type := "text"
                  text := prepareResponseObj env params true (some rowData) none }] }

/-- The envelope inside a transport response (its single content block). -/
def ToolResponse.envelope (r : ToolResponse) : Option ResponseObj :=
  (r.content.head?).map ContentBlock.text

/-- `r` is a structured failure response for an error whose message was
`msg`: the outer `isError` flag is set and the envelope has `success: false`
and carries the error text derived from `msg`. -/
def isFailureEnvelope (r : ToolResponse) (msg : String) : Prop :=
  r.isError = some true ∧
  ∃ ro, r.envelope = some ro ∧ ro.success = false ∧
    ro.error = some (errText (some msg))

/-- `executeQuery`: the try block throws on an uninitialized handler and on a
cluster or database that neither the parameters nor the environment supply;
otherwise it defaults the parameters, obtains a client via `getClient`,
executes the query, reads `rawData.data || []` off the parsed payload, and
returns the success envelope.  Every throw is caught by the catch block,
which returns the failure envelope built from the error's message together
with `isError: true`.  The result is the transport response, the handler
state after the call, and the trace of external calls made. -/
def KustoHandler.executeQuery (h : KustoHandler) (w : KustoWorld) (env : Env)
    (params : KustoQueryParams) :
    ToolResponse × KustoHandler × List Effect :=
  if !h.inited then
    (errorResponse env params notInitedMsg, h, [])
  else if !jsTruthy params.clusterUrl && !jsTruthy env.KUSTO_DEFAULT_CLUSTER then
    (errorResponse env params clusterReqMsg, h, [])
  else if !jsTruthy params.database && !jsTruthy env.KUSTO_DEFAULT_DATABASE then
    (errorResponse env params databaseReqMsg, h, [])
  else
    -- the source binds `clusterUrl` and `database` once
    -- (`params.x || process.env.KUSTO_DEFAULT_X!`); the bindings are inlined
    -- here at each use site
    match h.getClient w (jsOrD params.clusterUrl env.KUSTO_DEFAULT_CLUSTER) with
    | (.error e, h', fx) => (errorResponse env params e.message, h', fx)
    | (.ok client, h', fx) =>
      match w.executeResult client.url
          (jsOrD params.database env.KUSTO_DEFAULT_DATABASE) params.query with
      | .error e =>
        (errorResponse env params e.message, h',
          fx ++ [.execute (jsOrD params.database env.KUSTO_DEFAULT_DATABASE)
                   params.query])
      | .ok rawData =>
        match jsGetMember rawData "data" with
        | .error e =>
          (errorResponse env params e.message, h',
            fx ++ [.execute (jsOrD params.database env.KUSTO_DEFAULT_DATABASE)
                     params.query])
        | .ok m =>
          (successResponse env params
              (match m with
                | some v => if jsTruthyJson v then v else .arr []
                | none => .arr []),
            h',
            fx ++ [.execute (jsOrD params.database env.KUSTO_DEFAULT_DATABASE)
                     params.query])

/-! ## Router (`ADXServer` in `index.ts`) -/

/-- The protocol error codes the router uses. -/
inductive ErrorCode where
  | InvalidParams : ErrorCode
  deriving Repr, DecidableEq

/-- A protocol-level error thrown by the router (`McpError`). -/
structure McpError where
  code : ErrorCode
  message : String
  deriving Repr, DecidableEq

/-- The untyped `arguments` object of a CallTool request, restricted to the
keys the router reads; each may be absent. -/
structure ToolArgs where
  query : Option String := none
  database : Option String := none
  clusterUrl : Option String := none
  deriving Repr, DecidableEq, Inhabited

/-- `ADXServer.handleToolCall`: for `execute_kusto_query`, validate that the
cluster URL and the database are supplied by the arguments or the
environment (throwing an invalid-params `McpError` otherwise) and delegate
to `executeQuery`; any other name throws an invalid-params `McpError`
naming the unknown tool.  An absent `query` argument flows through the
untyped parameter object unchecked; it is modelled as the empty string,
which no later branch inspects. -/
def handleToolCall (h : KustoHandler) (w : KustoWorld) (env : Env)
    (name : String) (args : ToolArgs) :
    Except McpError (ToolResponse × KustoHandler × List Effect) :=
  if name = "execute_kusto_query" then
    let params : KustoQueryParams :=
      { query := args.query.getD ""
        database := args.database
        clusterUrl := args.clusterUrl }
    if !jsTruthy params.clusterUrl && !jsTruthy env.KUSTO_DEFAULT_CLUSTER then
      .error ⟨.InvalidParams, clusterReqMsg⟩
    else if !jsTruthy params.database && !jsTruthy env.KUSTO_DEFAULT_DATABASE then
      .error ⟨.InvalidParams, databaseReqMsg⟩
    else
      .ok (h.executeQuery w env params)
  else
    .error ⟨.InvalidParams, "Unknown tool name: " ++ name⟩

/-- One observability event emitted through `logger.event`, with the
dimensions the CallTool handler records. -/
structure LogEvent where
  eventType : String
  name : String
  duration : Nat
  status : String
  args : ToolArgs
  serverName : String
  version : String
  deriving Repr, DecidableEq

/-- The CallTool request handler installed by `setupToolHandlers`: time the
call, and in the `finally` block emit exactly one `TOOL_INVOKED` event with
the elapsed duration and a status of `success`, or of `failure` when
`handleToolCall` threw — in which case the error is rethrown after the event
is emitted.  The two `Date.now()` readings are parameters. -/
def callToolRequestHandler (h : KustoHandler) (w : KustoWorld) (env : Env)
    (serverName version : String) (name : String) (args : ToolArgs)
    (startTime endTime : Nat) :
    Except McpError (ToolResponse × KustoHandler × List Effect) ×
      List LogEvent :=
  let duration := endTime - startTime
  match handleToolCall h w env name args with
  | .ok r =>
    (.ok r,
      [{ eventType := "TOOL_INVOKED", name := name, duration := duration
         status := "success", args := args, serverName := serverName
         version := version }])
  | .error e =>
    (.error e,
      [{ eventType := "TOOL_INVOKED", name := name, duration := duration
         status := "failure", args := args, serverName := serverName
         version := version }])

/-! ## Concrete worlds used by scenario theorems and witnesses -/

/-- A world in which every external call succeeds and every query returns the
payload `{"data": rows}`. -/
def okWorld (rows : List Json) : KustoWorld :=
  { getTokenResult := fun _ => .ok ()
    newClientResult := fun _ => .ok ()
    executeResult := fun _ _ _ => .ok (.obj [("data", .arr rows)]) }

/-- A world in which every external call succeeds and every query returns the
fixed parsed payload `j`. -/
def payloadWorld (j : Json) : KustoWorld :=
  { getTokenResult := fun _ => .ok ()
    newClientResult := fun _ => .ok ()
    executeResult := fun _ _ _ => .ok j }

/-- A world in which credential acquisition always fails with `boom`. -/
def tokenFailWorld : KustoWorld :=
  { getTokenResult := fun _ => .error ⟨"boom"⟩
    newClientResult := fun _ => .ok ()
    executeResult := fun _ _ _ => .ok (.obj [("data", .arr [])]) }

/-- A handler that has run `initialize()` and holds a cached client for
`https://example.kusto.windows.net`; used by concrete instantiations. -/
def cachedHandler : KustoHandler :=
  { currentClusterUrl := some "https://example.kusto.windows.net"
    kustoClient := some { url := "https://example.kusto.windows.net", id := 0 }
    inited := true
    clientSeq := 1 }

/-! ## Theorems -/

/-- Every `errorResponse` is a structured failure response for its message:
shared shape lemma used by several claims. -/
theorem errorResponse_isFailure (env : Env) (params : KustoQueryParams)
    (msg : String) : isFailureEnvelope (errorResponse env params msg) msg := by
  refine ⟨rfl, prepareResponseObj env params false none (some msg), rfl, ?_, ?_⟩
  · simp [prepareResponseObj]
  · simp [prepareResponseObj]

/-- C2: calling `executeQuery` on a handler whose `initialize()` has not run
returns the failure envelope for the "not initialized" error — outer
`isError` set, `success: false`, error text containing "not initialized" —
leaves the handler unchanged, makes no external call (empty effect trace),
and in particular never constructs a client. -/
theorem executeQuery_not_inited (h : KustoHandler) (w : KustoWorld)
    (env : Env) (params : KustoQueryParams) (hinit : h.inited = false) :
    h.executeQuery w env params = (errorResponse env params notInitedMsg, h, []) ∧
    isFailureEnvelope (h.executeQuery w env params).1 notInitedMsg ∧
    containsStr notInitedMsg "not initialized" = true := by
  have hq : h.executeQuery w env params =
      (errorResponse env params notInitedMsg, h, []) := by
    simp [KustoHandler.executeQuery, hinit]
  refine ⟨hq, ?_, by decide⟩
  rw [hq]
  exact errorResponse_isFailure env params notInitedMsg

/-- C2 witness: a fresh handler is uninitialized, and the theorem applies to
it at a concrete world, environment and parameter object. -/
theorem executeQuery_not_inited_witness :
    ({} : KustoHandler).inited = false ∧
    (({} : KustoHandler).executeQuery (okWorld []) {} { query := "test query" } =
        (errorResponse {} { query := "test query" } notInitedMsg,
          ({} : KustoHandler), []) ∧
      isFailureEnvelope
        ((({} : KustoHandler).executeQuery (okWorld []) {}
            { query := "test query" })).1 notInitedMsg ∧
      containsStr notInitedMsg "not initialized" = true) :=
  ⟨rfl, executeQuery_not_inited {} (okWorld []) {} { query := "test query" } rfl⟩

/-- C3: `executeQuery` never throws past its boundary: for every handler
state, oracle, environment and parameter object its result is a structured
transport response — either the success shape (no `isError` flag) or, on any
failure, the failure shape whose outer `isError` flag is set and whose
envelope carries the failing error's message text. -/
theorem executeQuery_no_throw (h : KustoHandler) (w : KustoWorld) (env : Env)
    (params : KustoQueryParams) :
    (∃ rowData, (h.executeQuery w env params).1 = successResponse env params rowData ∧
      (h.executeQuery w env params).1.isError = none) ∨
    (∃ msg, (h.executeQuery w env params).1 = errorResponse env params msg ∧
      isFailureEnvelope (h.executeQuery w env params).1 msg) := by
  unfold KustoHandler.executeQuery
  repeat' split
  all_goals
    first
      | exact Or.inl ⟨_, rfl, rfl⟩
      | exact Or.inr ⟨_, rfl, errorResponse_isFailure _ _ _⟩

/-- C4: on an initialized handler, a cluster identity that is absent or
empty with no environment default makes `executeQuery` return the failure
envelope for the cluster-URL requirement with an empty effect trace (so in
particular before any client construction); symmetrically, when the cluster
resolves but the database is absent or empty with no environment default,
the failure envelope references the database requirement, again with no
external call. -/
theorem executeQuery_param_validation (h : KustoHandler) (w : KustoWorld)
    (env : Env) (params : KustoQueryParams) (hinit : h.inited = true) :
    (jsTruthy params.clusterUrl = false →
      jsTruthy env.KUSTO_DEFAULT_CLUSTER = false →
      h.executeQuery w env params = (errorResponse env params clusterReqMsg, h, []) ∧
      isFailureEnvelope (h.executeQuery w env params).1 clusterReqMsg ∧
      containsStr clusterReqMsg "Cluster URL" = true) ∧
    ((jsTruthy params.clusterUrl = true ∨ jsTruthy env.KUSTO_DEFAULT_CLUSTER = true) →
      jsTruthy params.database = false →
      jsTruthy env.KUSTO_DEFAULT_DATABASE = false →
      h.executeQuery w env params = (errorResponse env params databaseReqMsg, h, []) ∧
      isFailureEnvelope (h.executeQuery w env params).1 databaseReqMsg ∧
      containsStr databaseReqMsg "Database" = true) := by
  constructor
  · intro hc he
    have hq : h.executeQuery w env params =
        (errorResponse env params clusterReqMsg, h, []) := by
      simp [KustoHandler.executeQuery, hinit, hc, he]
    refine ⟨hq, ?_, by decide⟩
    rw [hq]
    exact errorResponse_isFailure env params clusterReqMsg
  · intro hcl hd he
    have hq : h.executeQuery w env params =
        (errorResponse env params databaseReqMsg, h, []) := by
      rcases hcl with hcl | hcl <;>
        simp [KustoHandler.executeQuery, hinit, hcl, hd, he]
    refine ⟨hq, ?_, by decide⟩
    rw [hq]
    exact errorResponse_isFailure env params databaseReqMsg

/-- C4 witness: the cluster branch at empty parameters and environment, and
the database branch with the cluster supplied by the environment. -/
theorem executeQuery_param_validation_witness :
    (({ inited := true } : KustoHandler).inited = true ∧
      jsTruthy ({ query := "test query" } : KustoQueryParams).clusterUrl = false ∧
      jsTruthy ({} : Env).KUSTO_DEFAULT_CLUSTER = false ∧
      (KustoHandler.executeQuery { inited := true } (okWorld []) {}
          { query := "test query" } =
        (errorResponse {} { query := "test query" } clusterReqMsg,
          { inited := true }, []) ∧
        isFailureEnvelope
          (KustoHandler.executeQuery { inited := true } (okWorld []) {}
            { query := "test query" }).1 clusterReqMsg ∧
        containsStr clusterReqMsg "Cluster URL" = true)) ∧
    (jsTruthy ({ KUSTO_DEFAULT_CLUSTER := some "foo" } : Env).KUSTO_DEFAULT_CLUSTER = true ∧
      (KustoHandler.executeQuery { inited := true } (okWorld [])
          { KUSTO_DEFAULT_CLUSTER := some "foo" } { query := "test query" } =
        (errorResponse { KUSTO_DEFAULT_CLUSTER := some "foo" }
            { query := "test query" } databaseReqMsg,
          { inited := true }, []) ∧
        isFailureEnvelope
          (KustoHandler.executeQuery { inited := true } (okWorld [])
            { KUSTO_DEFAULT_CLUSTER := some "foo" } { query := "test query" }).1
          databaseReqMsg ∧
        containsStr databaseReqMsg "Database" = true)) :=
  ⟨⟨rfl, rfl, rfl,
      (executeQuery_param_validation { inited := true } (okWorld []) {}
          { query := "test query" } rfl).1 rfl rfl⟩,
    ⟨rfl,
      (executeQuery_param_validation { inited := true } (okWorld [])
          { KUSTO_DEFAULT_CLUSTER := some "foo" } { query := "test query" } rfl).2
        (Or.inr rfl) rfl rfl⟩⟩

/-- C5: with only a query supplied and environment defaults `cluster=foo`,
`database=bar`, an initialized handler resolves the connection to
`https://foo.kusto.windows.net` (echoed in the envelope and used for the
token scope and client construction), executes the query against `bar`, and
returns a success envelope carrying the returned rows. -/
theorem executeQuery_env_defaults_scenario (rows : List Json) :
    (KustoHandler.executeQuery { inited := true } (okWorld rows)
        { KUSTO_DEFAULT_CLUSTER := some "foo", KUSTO_DEFAULT_DATABASE := some "bar" }
        { query := "T | take 1" }).1 =
      successResponse
        { KUSTO_DEFAULT_CLUSTER := some "foo", KUSTO_DEFAULT_DATABASE := some "bar" }
        { query := "T | take 1" } (.arr rows) ∧
    (KustoHandler.executeQuery { inited := true } (okWorld rows)
        { KUSTO_DEFAULT_CLUSTER := some "foo", KUSTO_DEFAULT_DATABASE := some "bar" }
        { query := "T | take 1" }).1.envelope =
      some { success := true
             input := { clusterUrl := "https://foo.kusto.windows.net"
                        database := "bar"
                        query := "T | take 1" }
             data := some (.arr rows)
             message := some (rowsMessage (toString rows.length)) } ∧
    (KustoHandler.executeQuery { inited := true } (okWorld rows)
        { KUSTO_DEFAULT_CLUSTER := some "foo", KUSTO_DEFAULT_DATABASE := some "bar" }
        { query := "T | take 1" }).2.2 =
      [.getToken "https://foo.kusto.windows.net/.default",
       .newClient "https://foo.kusto.windows.net",
       .execute "bar" "T | take 1"] :=
  ⟨rfl, rfl, rfl⟩

/-- Shared shape lemma: the envelope of an `errorResponse` has
`success: false`. -/
theorem errorResponse_envelope_success_false (env : Env)
    (params : KustoQueryParams) (msg : String) (ro : ResponseObj)
    (hro : (errorResponse env params msg).envelope = some ro) :
    ro.success = false := by
  have hro' : prepareResponseObj env params false none (some msg) = ro := by
    simpa [errorResponse, ToolResponse.envelope] using hro
  subst hro'
  simp [prepareResponseObj]

/-- Shared shape lemma: a success envelope whose `data` field is the list
`xs` carries the row-count message rendered from `xs.length`. -/
theorem successResponse_envelope_rowcount (env : Env)
    (params : KustoQueryParams) (d : Json) (ro : ResponseObj) (xs : List Json)
    (hro : (successResponse env params d).envelope = some ro)
    (hs : ro.success = true) (hd : ro.data = some (.arr xs)) :
    ro.message = some (rowsMessage (toString xs.length)) := by
  have hro' : prepareResponseObj env params true (some d) none = ro := by
    simpa [successResponse, ToolResponse.envelope] using hro
  subst hro'
  by_cases ht : jsTruthyJson d
  · simp [prepareResponseObj, ht] at hd ⊢
    subst hd
    simp [jsLengthStr]
  · simp [prepareResponseObj, ht] at hd

/-- C6: in every successful `executeQuery` response whose envelope carries a
list of row records in `data`, the `message` field states exactly the length
of that list as the retrieved row count. -/
theorem executeQuery_success_rowcount (h : KustoHandler) (w : KustoWorld)
    (env : Env) (params : KustoQueryParams) (ro : ResponseObj) (xs : List Json)
    (hro : (h.executeQuery w env params).1.envelope = some ro)
    (hs : ro.success = true) (hd : ro.data = some (.arr xs)) :
    ro.message = some (rowsMessage (toString xs.length)) := by
  unfold KustoHandler.executeQuery at hro
  repeat' split at hro
  all_goals
    first
      | exact successResponse_envelope_rowcount _ _ _ _ _ hro hs hd
      | (exfalso
         have hf := errorResponse_envelope_success_false _ _ _ _ hro
         rw [hf] at hs
         exact Bool.noConfusion hs)

/-- C6 witness: a concrete successful run with two rows states `2 rows` in
its message. -/
theorem executeQuery_success_rowcount_witness :
    (KustoHandler.executeQuery { inited := true } (okWorld [.num 1, .num 2])
        { KUSTO_DEFAULT_CLUSTER := some "foo", KUSTO_DEFAULT_DATABASE := some "bar" }
        { query := "T | take 2" }).1.envelope =
      some (prepareResponseObj
        { KUSTO_DEFAULT_CLUSTER := some "foo", KUSTO_DEFAULT_DATABASE := some "bar" }
        { query := "T | take 2" } true (some (.arr [.num 1, .num 2])) none) ∧
    (prepareResponseObj
        { KUSTO_DEFAULT_CLUSTER := some "foo", KUSTO_DEFAULT_DATABASE := some "bar" }
        { query := "T | take 2" } true (some (.arr [.num 1, .num 2])) none).success = true ∧
    (prepareResponseObj
        { KUSTO_DEFAULT_CLUSTER := some "foo", KUSTO_DEFAULT_DATABASE := some "bar" }
        { query := "T | take 2" } true (some (.arr [.num 1, .num 2])) none).data =
      some (.arr [.num 1, .num 2]) ∧
    (prepareResponseObj
        { KUSTO_DEFAULT_CLUSTER := some "foo", KUSTO_DEFAULT_DATABASE := some "bar" }
        { query := "T | take 2" } true (some (.arr [.num 1, .num 2])) none).message =
      some (rowsMessage (toString ([Json.num 1, Json.num 2]).length)) :=
  ⟨rfl, rfl, rfl,
    executeQuery_success_rowcount { inited := true } (okWorld [.num 1, .num 2])
      { KUSTO_DEFAULT_CLUSTER := some "foo", KUSTO_DEFAULT_DATABASE := some "bar" }
      { query := "T | take 2" } _ [.num 1, .num 2] rfl rfl rfl⟩

/-- C7: a tool-call whose operation name is not a recognized tool name makes
the router throw an invalid-parameters protocol error naming the unknown
tool, and never return a success envelope. -/
theorem handleToolCall_unknown_tool (h : KustoHandler) (w : KustoWorld)
    (env : Env) (args : ToolArgs) (name : String)
    (hname : name ≠ "execute_kusto_query") :
    handleToolCall h w env name args =
      .error ⟨.InvalidParams, "Unknown tool name: " ++ name⟩ ∧
    ∀ r, handleToolCall h w env name args ≠ .ok r := by
  have hq : handleToolCall h w env name args =
      .error ⟨.InvalidParams, "Unknown tool name: " ++ name⟩ := by
    simp [handleToolCall, hname]
  refine ⟨hq, fun r hr => ?_⟩
  rw [hq] at hr
  exact Except.noConfusion hr

/-- C7 witness: the name `list_tables` (not wired up in this router) is
rejected as an unknown tool. -/
theorem handleToolCall_unknown_tool_witness :
    ("list_tables" ≠ "execute_kusto_query") ∧
    (handleToolCall {} (okWorld []) {} "list_tables" {} =
      .error ⟨.InvalidParams, "Unknown tool name: " ++ "list_tables"⟩ ∧
     ∀ r, handleToolCall {} (okWorld []) {} "list_tables" {} ≠ .ok r) :=
  ⟨by decide,
    handleToolCall_unknown_tool {} (okWorld []) {} {} "list_tables" (by decide)⟩

/-- C8: every tool invocation through the CallTool request handler emits
exactly one observability event, recording the tool name, the elapsed
duration, and a status that is `success` when the underlying call returned
and `failure` when it threw — the event is emitted in both cases. -/
theorem callTool_one_event (h : KustoHandler) (w : KustoWorld) (env : Env)
    (serverName version name : String) (args : ToolArgs)
    (startTime endTime : Nat) :
    (callToolRequestHandler h w env serverName version name args
        startTime endTime).2.length = 1 ∧
    (callToolRequestHandler h w env serverName version name args
        startTime endTime).2 =
      [{ eventType := "TOOL_INVOKED", name := name
         duration := endTime - startTime
         status :=
           match (callToolRequestHandler h w env serverName version name args
               startTime endTime).1 with
             | .ok _ => "success"
             | .error _ => "failure"
         args := args, serverName := serverName, version := version }] := by
  cases hc : handleToolCall h w env name args <;>
    simp [callToolRequestHandler, hc]

/-- Shared lemma: when `makeClient` fails, the handler state it returns is
the state it was given (the cache assignments come after both external
calls). -/
theorem makeClient_error_state (h : KustoHandler) (w : KustoWorld)
    (u : String) (e : KError) (he : (h.makeClient w u).1 = .error e) :
    (h.makeClient w u).2.1 = h := by
  unfold KustoHandler.makeClient at he ⊢
  cases hgt : w.getTokenResult (u ++ "/.default") with
  | error e2 => simp [hgt]
  | ok u2 =>
    cases hnc : w.newClientResult u with
    | error e2 => simp [hgt, hnc]
    | ok u3 => simp [hgt, hnc] at he

/-- C9: when credential acquisition or client construction inside
`getClient` throws, the error propagates and the cached state is unchanged
(`currentClusterUrl` and `kustoClient` keep their prior values), so a later
call for the prior identity still returns the prior handle with no external
call. -/
theorem getClient_error_keeps_cache (h : KustoHandler) (w w' : KustoWorld)
    (url prior : String) (e : KError)
    (herr : (h.getClient w url).1 = .error e) :
    (h.getClient w url).2.1 = h ∧
    ∀ c, h.kustoClient = some c →
      h.currentClusterUrl = some (formatClusterUrl prior) →
      ((h.getClient w url).2.1).getClient w' prior = (.ok c, h, []) := by
  have hstate : (h.getClient w url).2.1 = h := by
    cases hkc : h.kustoClient with
    | none =>
      have herr' : (h.makeClient w (formatClusterUrl url)).1 = .error e := by
        simpa [KustoHandler.getClient, hkc] using herr
      simpa [KustoHandler.getClient, hkc] using
        makeClient_error_state h w _ e herr'
    | some c =>
      by_cases heq : h.currentClusterUrl = some (formatClusterUrl url)
      · simp [KustoHandler.getClient, hkc, heq] at herr
      · have herr' : (h.makeClient w (formatClusterUrl url)).1 = .error e := by
          simpa [KustoHandler.getClient, hkc, heq] using herr
        simpa [KustoHandler.getClient, hkc, heq] using
          makeClient_error_state h w _ e herr'
  refine ⟨hstate, fun c hc hcur => ?_⟩
  rw [hstate]
  simp [KustoHandler.getClient, hc, hcur]

/-- C9 witness: a failing credential acquisition for a new identity leaves a
cached handler intact, and the prior identity still hits the cache. -/
theorem getClient_error_keeps_cache_witness :
    ((cachedHandler.getClient tokenFailWorld
        "https://other.kusto.windows.net").1 = .error ⟨"boom"⟩) ∧
    cachedHandler.kustoClient =
      some { url := "https://example.kusto.windows.net", id := 0 } ∧
    cachedHandler.currentClusterUrl =
      some (formatClusterUrl "https://example.kusto.windows.net") ∧
    ((cachedHandler.getClient tokenFailWorld
        "https://other.kusto.windows.net").2.1 = cachedHandler ∧
      ((cachedHandler.getClient tokenFailWorld
          "https://other.kusto.windows.net").2.1).getClient (okWorld [])
          "https://example.kusto.windows.net" =
        (.ok { url := "https://example.kusto.windows.net", id := 0 },
          cachedHandler, [])) := by
  have T := getClient_error_keeps_cache cachedHandler tokenFailWorld
    (okWorld []) "https://other.kusto.windows.net"
    "https://example.kusto.windows.net" ⟨"boom"⟩ rfl
  exact ⟨rfl, rfl, rfl, T.1, T.2 _ rfl rfl⟩

/-- C10: when the raw primary-result payload parses as JSON but has no
`data` field (`rawData.data` is `undefined`), `executeQuery` returns a
success envelope — not a failure envelope — whose data list is empty and
whose message states that 0 rows were retrieved. -/
theorem executeQuery_missing_data_field (q : String) (j : Json)
    (hj : jsGetMember j "data" = .ok none) :
    (KustoHandler.executeQuery { inited := true } (payloadWorld j)
        { KUSTO_DEFAULT_CLUSTER := some "foo", KUSTO_DEFAULT_DATABASE := some "bar" }
        { query := q }).1 =
      successResponse
        { KUSTO_DEFAULT_CLUSTER := some "foo", KUSTO_DEFAULT_DATABASE := some "bar" }
        { query := q } (.arr []) ∧
    (KustoHandler.executeQuery { inited := true } (payloadWorld j)
        { KUSTO_DEFAULT_CLUSTER := some "foo", KUSTO_DEFAULT_DATABASE := some "bar" }
        { query := q }).1.envelope =
      some { success := true
             input := { clusterUrl := "https://foo.kusto.windows.net"
                        database := "bar"
                        query := q }
             data := some (.arr [])
             message := some "Query executed successfully. Retrieved 0 rows." } := by
  have key : KustoHandler.executeQuery { inited := true } (payloadWorld j)
      { KUSTO_DEFAULT_CLUSTER := some "foo", KUSTO_DEFAULT_DATABASE := some "bar" }
      { query := q } =
    (match jsGetMember j "data" with
      | .error e =>
        (errorResponse
            { KUSTO_DEFAULT_CLUSTER := some "foo", KUSTO_DEFAULT_DATABASE := some "bar" }
            { query := q } e.message,
          { currentClusterUrl := some "https://foo.kusto.windows.net"
            kustoClient := some { url := "https://foo.kusto.windows.net", id := 0 }
            inited := true
            clientSeq := 1 },
          [.getToken "https://foo.kusto.windows.net/.default",
           .newClient "https://foo.kusto.windows.net",
           .execute "bar" q])
      | .ok m =>
        (successResponse
            { KUSTO_DEFAULT_CLUSTER := some "foo", KUSTO_DEFAULT_DATABASE := some "bar" }
            { query := q }
            (match m with
              | some v => if jsTruthyJson v then v else .arr []
              | none => .arr []),
          { currentClusterUrl := some "https://foo.kusto.windows.net"
            kustoClient := some { url := "https://foo.kusto.windows.net", id := 0 }
            inited := true
            clientSeq := 1 },
          [.getToken "https://foo.kusto.windows.net/.default",
           .newClient "https://foo.kusto.windows.net",
           .execute "bar" q])) := rfl
  rw [key, hj]
  exact ⟨rfl, rfl⟩

/-- C10 witness: the payload `{"tableName": "T"}` parses but has no `data`
field; the response is the 0-row success envelope. -/
theorem executeQuery_missing_data_field_witness :
    jsGetMember (.obj [("tableName", .str "T")]) "data" = .ok none ∧
    ((KustoHandler.executeQuery { inited := true }
          (payloadWorld (.obj [("tableName", .str "T")]))
          { KUSTO_DEFAULT_CLUSTER := some "foo", KUSTO_DEFAULT_DATABASE := some "bar" }
          { query := "T | take 1" }).1 =
        successResponse
          { KUSTO_DEFAULT_CLUSTER := some "foo", KUSTO_DEFAULT_DATABASE := some "bar" }
          { query := "T | take 1" } (.arr []) ∧
      (KustoHandler.executeQuery { inited := true }
          (payloadWorld (.obj [("tableName", .str "T")]))
          { KUSTO_DEFAULT_CLUSTER := some "foo", KUSTO_DEFAULT_DATABASE := some "bar" }
          { query := "T | take 1" }).1.envelope =
        some { success := true
               input := { clusterUrl := "https://foo.kusto.windows.net"
                          database := "bar"
                          query := "T | take 1" }
               data := some (.arr [])
               message := some "Query executed successfully. Retrieved 0 rows." }) :=
  ⟨rfl, executeQuery_missing_data_field "T | take 1"
    (.obj [("tableName", .str "T")]) rfl⟩

/-- C1 (failing input): the cache-key comparison is case-sensitive, so two
calls with cluster URLs differing only in letter case acquire credentials
twice and construct two distinct client handles (`id` 0 then 1), contrary to
the claimed one-handle / one-credential-fetch invariant (and contrary to the
repo's own test title "should not create a new client if clusterUrl only
uppercase and lowercase differences", whose body compares a call with
itself). -/
theorem getClient_case_sensitivity_failing_input :
    (KustoHandler.getClient { inited := true } (okWorld [])
        "https://EXAMPLE.kusto.windows.net").1 =
      .ok { url := "https://EXAMPLE.kusto.windows.net", id := 0 } ∧
    (KustoHandler.getClient { inited := true } (okWorld [])
        "https://EXAMPLE.kusto.windows.net").2.2 =
      [.getToken "https://EXAMPLE.kusto.windows.net/.default",
       .newClient "https://EXAMPLE.kusto.windows.net"] ∧
    ((KustoHandler.getClient { inited := true } (okWorld [])
        "https://EXAMPLE.kusto.windows.net").2.1).getClient (okWorld [])
        "https://example.kusto.windows.net" =
      (.ok { url := "https://example.kusto.windows.net", id := 1 },
        { currentClusterUrl := some "https://example.kusto.windows.net"
          kustoClient := some { url := "https://example.kusto.windows.net", id := 1 }
          inited := true
          clientSeq := 2 },
        [.getToken "https://example.kusto.windows.net/.default",
         .newClient "https://example.kusto.windows.net"]) :=
  ⟨rfl, rfl, rfl⟩

end ADX
